import Mathlib

/-!
Verification of the dpp-app performance-analytics engine.

Shallow embedding of the Python sources (`daily.py`, `data-grab*.py`,
`portfolio-optimizer.py`).  Decimal prices are modelled exactly as rationals;
Python's `round(x, d)` (round-half-to-even at `d` decimal places) is modelled
by `pyRound`.  All I/O collaborators (the yfinance snapshot, the history
fetches, the bulk downloads) are passed in as explicit data so that every
function is pure and executable.
-/

namespace DppApp

/-- The integer nearest to `x`, ties going to the even integer
(Python's `round` semantics). -/
def roundHalfEven (x : ℚ) : ℤ :=
  let n := ⌊x⌋
  let f := x - (n : ℚ)
  if f < 1/2 then n
  else if 1/2 < f then n + 1
  else if n % 2 = 0 then n else n + 1

/-- Python's `round(x, d)`: round to `d` decimal places, half to even. -/
def pyRound (x : ℚ) (d : ℕ) : ℚ :=
  (roundHalfEven (x * 10 ^ d) : ℚ) / 10 ^ d

/-- A resolved quote: `[previous_close, current_price]` as returned by
`return_prev_close_and_current`. -/
structure Quote where
  prevClose : ℚ
  currentPrice : ℚ
  deriving DecidableEq

/-- `daily.py` line 75: `total_portfolio_at_open += num_shares[i] * price_data[i][0]`
guarded by `if price_data[i]:`. -/
def total_portfolio_at_open (price_data : List (Option Quote)) (num_shares : List ℚ) : ℚ :=
  (List.zipWith (fun p s => match p with
    | some q => s * q.prevClose
    | none => 0) price_data num_shares).sum

/-- `daily.py` line 80: `total_portfolio_current += num_shares[i] * price_data[i][1]`. -/
def total_portfolio_current (price_data : List (Option Quote)) (num_shares : List ℚ) : ℚ :=
  (List.zipWith (fun p s => match p with
    | some q => s * q.currentPrice
    | none => 0) price_data num_shares).sum

/-- `daily.py` `run_calcs`, lines 56-89, with the per-ticker quote resolution
injected as `resolve`.  Returns `[dollar_change, percent_change]`. -/
def run_calcs (resolve : String → Option Quote)
    (tickers : List String) (num_shares : List ℚ) : ℚ × ℚ :=
  let price_data := tickers.map resolve
  if price_data.any (fun p => p.isNone) then (0, 0)
  else
    let tpo := total_portfolio_at_open price_data num_shares
    let tpc := total_portfolio_current price_data num_shares
    let dollar_change := pyRound (tpc - tpo) 2
    let percent_change := if tpo = 0 then 0 else pyRound (dollar_change / tpo) 4
    (dollar_change, percent_change)

lemma run_calcs_absent (resolve : String → Option Quote)
    (tickers : List String) (num_shares : List ℚ) (tk : String)
    (h : resolve tk = none) (hm : tk ∈ tickers) :
    run_calcs resolve tickers num_shares = (0, 0) := by
  unfold run_calcs
  have hany : (tickers.map resolve).any (fun p => p.isNone) = true := by
    rw [List.any_eq_true]
    exact ⟨resolve tk, List.mem_map_of_mem resolve hm, by rw [h]; rfl⟩
  simp only [hany, if_true]

/-- The `.info` snapshot fields used by `return_prev_close_and_current`
(`daily.py` lines 24, 34, 36): each may be missing (`none`). -/
structure TickerInfo where
  previousClose : Option ℚ
  regularMarketPrice : Option ℚ
  currentPrice : Option ℚ
  deriving DecidableEq

/-- `x is None or x == 0` — the "unusable" test the resolver applies to every
snapshot field. -/
def unusable : Option ℚ → Bool
  | none => true
  | some v => decide (v = 0)

/-- Output precision (`daily.py` line 21): 4 decimals for the yield-reference
ticker `^TNX`, 2 otherwise. -/
def quotePrecision (ticker_string : String) : ℕ :=
  if ticker_string = "^TNX" then 4 else 2

/-- `daily.py` `return_prev_close_and_current`, lines 13-54, with the fetched
data injected: `info` is `ticker.info`, `hist2d` the closes of the 2-day daily
history (chronological order), `hist1d` the closes of the 1-day daily history
fetched only when the 2-day one was not already fetched. -/
def return_prev_close_and_current (ticker_string : String) (info : TickerInfo)
    (hist2d hist1d : List ℚ) : Option Quote :=
  let precision := quotePrecision ticker_string
  let histFetched := unusable info.previousClose
  let previous_close : Option ℚ :=
    if unusable info.previousClose then
      if 1 ≤ hist2d.length then hist2d.getLast? else none
    else info.previousClose
  match previous_close with
  | none => none
  | some pc =>
    let cp1 := info.regularMarketPrice
    let cp2 := if unusable cp1 then info.currentPrice else cp1
    let cp3 :=
      if unusable cp2 then
        let hist := if histFetched then hist2d else hist1d
        if 1 ≤ hist.length then hist.getLast? else cp2
      else cp2
    match cp3 with
    | none => none
    | some c =>
      if c = 0 then none
      else some ⟨pyRound pc precision, pyRound c precision⟩

lemma sum_zipWith_sub {α β : Type} (f g : α → β → ℚ) (xs : List α) (ys : List β) :
    (List.zipWith f xs ys).sum - (List.zipWith g xs ys).sum
      = (List.zipWith (fun a b => f a b - g a b) xs ys).sum := by
  induction xs generalizing ys with
  | nil => simp
  | cons x xs ih =>
    cases ys with
    | nil => simp
    | cons y ys =>
      simp only [List.zipWith_cons_cons, List.sum_cons, ← ih]
      ring

/-- Column lookup in a downloaded price panel: `data[ticker]`, `none` when the
ticker is not among the panel's columns. -/
def lookupCol (data : List (String × List ℚ)) (t : String) : Option (List ℚ) :=
  (data.find? (fun c => c.1 == t)).map (fun c => c.2)

/-- `series.pct_change()` with the leading NaN already dropped: the simple
daily return `(cur − prev) / prev` of consecutive closes. -/
def pct_change (xs : List ℚ) : List ℚ :=
  List.zipWith (fun prev cur => (cur - prev) / prev) xs xs.tail

/-- `.mean(axis=1)`: the cross-sectional (equal-weight) mean of several
aligned columns, one value per row. -/
def meanRows (cols : List (List ℚ)) : List ℚ :=
  cols.transpose.map (fun row => row.sum / (row.length : ℚ))

/-- `daily.py` line 112: the portfolio tickers actually present among the
panel's columns. -/
def valid_tickers (data : List (String × List ℚ)) (portfolio_tickers : List String) :
    List String :=
  portfolio_tickers.filter (fun t => (lookupCol data t).isSome)

/-- `daily.py` lines 114-121: the equal-weight average daily return of the
valid portfolio tickers, inner-joined with the market's daily returns
(`combined_returns`, after `dropna`). -/
def combined_returns (data : List (String × List ℚ)) (portfolio_tickers : List String)
    (mktCol : List ℚ) : List (ℚ × ℚ) :=
  List.zip
    (meanRows ((valid_tickers data portfolio_tickers).map
      (fun t => pct_change ((lookupCol data t).getD []))))
    (pct_change mktCol)

/-- Arithmetic mean of a list. -/
def mean (xs : List ℚ) : ℚ :=
  xs.sum / (xs.length : ℚ)

/-- `np.polyfit(x, y, 1)[0]` — the slope of the first-degree least-squares
fit of `y` against `x`, via its closed form `Σ(xᵢ−x̄)(yᵢ−ȳ) / Σ(xᵢ−x̄)²`
(numpy is an external collaborator; this is its documented least-squares
semantics). -/
def polyfitSlope (x y : List ℚ) : ℚ :=
  (List.zipWith (fun a b => (a - mean x) * (b - mean y)) x y).sum
    / ((x.map (fun a => (a - mean x) ^ 2)).sum)

/-- `daily.py` `calculate_beta`, lines 91-135, with the bulk download injected
as `fetch` (`Except.error` models any raised exception, caught by the
`except` clause; a missing market column raises a `KeyError`, likewise
caught). -/
def calculate_beta (fetch : Except Unit (List (String × List ℚ)))
    (portfolio_tickers : List String) (market_ticker : String) : ℚ :=
  match fetch with
  | .error _ => 1
  | .ok data =>
    match lookupCol data market_ticker with
    | none => 1
    | some mktCol =>
      if portfolio_tickers.isEmpty then 1
      else if (valid_tickers data portfolio_tickers).isEmpty then 1
      else
        let combined := combined_returns data portfolio_tickers mktCol
        if combined.length < 126 then 1
        else polyfitSlope (combined.map Prod.snd) (combined.map Prod.fst)

/-- `np.cov`'s sample covariance (divisor `n − 1`): entry `[0, 1]` of
`np.cov(xs, ys)`. -/
def sampleCov (xs ys : List ℚ) : ℚ :=
  (List.zipWith (fun a b => (a - mean xs) * (b - mean ys)) xs ys).sum
    / ((xs.length : ℚ) - 1)

/-- `np.cov`'s sample variance (divisor `n − 1`): entry `[0, 0]` of
`np.cov(xs, ys)`. -/
def sampleVar (xs : List ℚ) : ℚ :=
  ((xs.map (fun a => (a - mean xs) ^ 2)).sum) / ((xs.length : ℚ) - 1)

/-- `portfolio-optimizer.py` lines 75-76: `beta_period =
cov_matrix[0, 1] / cov_matrix[0, 0]` with `np.cov(bench, port)`. -/
def beta_period (bench port : List ℚ) : ℚ :=
  sampleCov bench port / sampleVar bench

/-- `TRADING_DAYS_PER_YEAR = 252` (`daily.py` line 9). -/
def TRADING_DAYS_PER_YEAR : ℚ := 252

/-- `daily.py` `alpha`, lines 137-157, with the fetched collaborators
injected: `tnx_data` is the resolved `^TNX` quote (`none` when retrieval
failed, in which case `annual_rfr` defaults to 0.04), `benchmark_gain` the
benchmark's `run_calcs` percent change, and `beta` the `calculate_beta`
result. -/
def alpha (portfolio_gain : ℚ) (tnx_data : Option Quote)
    (benchmark_gain beta : ℚ) : ℚ :=
  let annual_rfr :=
    match tnx_data with
    | some q => q.currentPrice / 100
    | none => 4 / 100
  let daily_rfr := annual_rfr / TRADING_DAYS_PER_YEAR
  portfolio_gain - (daily_rfr + beta * (benchmark_gain - daily_rfr))

/-- A wall-clock instant, split the way `get_last_updated_time` uses it:
`.date()` as a day number and `.time()` as minutes since midnight. -/
structure DateTime where
  date : ℕ
  timeOfDay : ℕ
  deriving DecidableEq

/-- `US_MARKET_CLOSE_TIME = time(16, 30)` (`daily.py` line 11), in minutes
since midnight. -/
def US_MARKET_CLOSE_TIME : ℕ := 16 * 60 + 30

/-- `datetime.fromtimestamp`: seconds-since-epoch to (day, minutes). -/
def fromtimestamp (ts : ℕ) : DateTime :=
  ⟨ts / 86400, ts % 86400 / 60⟩

/-- The three observable outcomes of `get_last_updated_time`: the LIVE state
(reporting the current time), the AFTER-CLOSE state (reporting the fixed
4:30PM close on the given data date), and the live-run fallback used when the
market timestamp is unavailable. -/
inductive UpdateTimeResult where
  | live (t : DateTime)
  | afterClose (dataDate : ℕ)
  | liveFallback (t : DateTime)
  deriving DecidableEq

/-- `daily.py` `get_last_updated_time`, lines 159-184, with the data source's
`regularMarketTime` injected (`none` models a missing field; Python also
treats a 0 timestamp as falsy).  The error fallback (a raised exception) is
outside this pure model. -/
def get_last_updated_time (marketTimestamp : Option ℕ) (now : DateTime) :
    UpdateTimeResult :=
  match marketTimestamp with
  | some ts =>
    if ts ≠ 0 then
      if (fromtimestamp ts).date = now.date
          ∧ now.timeOfDay < US_MARKET_CLOSE_TIME then
        UpdateTimeResult.live now
      else
        UpdateTimeResult.afterClose (fromtimestamp ts).date
    else UpdateTimeResult.liveFallback now
  | none => UpdateTimeResult.liveFallback now

/-- `portfolio-optimizer.py` lines 45-52: row `t` of the summed
position-value series.  A requested ticker absent from the panel's columns
contributes no position column, hence 0 to the row sum. -/
def portfolio_value_at (panel : List (String × List ℚ))
    (tickers : List String) (num_shares : List ℚ) (t : ℕ) : ℚ :=
  (List.zipWith (fun tk s =>
    match lookupCol panel tk with
    | some col => s * col.getD t 0
    | none => 0) tickers num_shares).sum

/-- `portfolio-optimizer.py` lines 55-57: cumulative return
`(end_val − start_val) / start_val` of the portfolio-value series, with
`lastIdx` the index of the final row. -/
def portfolio_total_return (panel : List (String × List ℚ))
    (tickers : List String) (num_shares : List ℚ) (lastIdx : ℕ) : ℚ :=
  (portfolio_value_at panel tickers num_shares lastIdx
      - portfolio_value_at panel tickers num_shares 0)
    / portfolio_value_at panel tickers num_shares 0

/-- `portfolio-optimizer.py` line 65: `avg_rfr_annual = price_data[rfr_ticker].mean() / 100`. -/
def avg_rfr_annual (rfrSeries : List ℚ) : ℚ :=
  mean rfrSeries / 100

/-- `portfolio-optimizer.py` line 67: `period_rfr = avg_rfr_annual * period_years`. -/
def period_rfr (avgAnnualRfr periodYears : ℚ) : ℚ :=
  avgAnnualRfr * periodYears

end DppApp

namespace DppApp

/-- Claim C1: if the quote resolution of any one holding returns Absent
(`None`), `run_calcs` returns exactly `(0, 0)`, regardless of all other
holdings' quotes: no partial aggregation over the resolved subset occurs. -/
theorem claim_C1_all_or_nothing (resolve : String → Option Quote)
    (tickers : List String) (num_shares : List ℚ) (tk : String)
    (h : resolve tk = none) (hm : tk ∈ tickers) :
    run_calcs resolve tickers num_shares = (0, 0) :=
  run_calcs_absent resolve tickers num_shares tk h hm

/-- Witness for C1: a 2-holding portfolio where the second ticker is
unresolvable collapses to `(0, 0)` even though the first holding has a
perfectly good quote. -/
theorem claim_C1_witness :
    run_calcs (fun t => if t = "AAA" then some ⟨100, 105⟩ else none)
      ["AAA", "BBB"] [10, 5] = (0, 0) :=
  claim_C1_all_or_nothing (fun t => if t = "AAA" then some ⟨100, 105⟩ else none)
    ["AAA", "BBB"] [10, 5] "BBB" (by with_unfolding_all decide)
    (by with_unfolding_all decide)

/-- Claim C2, counterexample: with the snapshot previous-close missing and a
2-day history whose bars close at 10 (second-most-recent) and 20 (most
recent), the resolver reports previous close 20 — the most recent bar, not
the second-most-recent bar 10 that the claim predicts. -/
theorem claim_C2_counterexample :
    return_prev_close_and_current "X" ⟨none, some 5, none⟩ [10, 20] []
        = some ⟨20, 5⟩
      ∧ ([10, 20] : List ℚ)[0]? = some 10
      ∧ (20 : ℚ) ≠ 10 := by
  refine ⟨by with_unfolding_all rfl, by with_unfolding_all rfl, ?_⟩
  with_unfolding_all decide

/-- Claim C2 as amended: for every ticker whose snapshot previous-close field
is missing, null, or exactly zero, the resolver falls back to the close of the
MOST recent daily bar of the 2-day daily history (here with a usable
regular-market-price snapshot so that the quote resolves). -/
theorem claim_C2_amended (ticker : String) (info : TickerInfo)
    (l hist1d : List ℚ) (x c : ℚ)
    (hpc : unusable info.previousClose = true)
    (hrmp : info.regularMarketPrice = some c) (hc : c ≠ 0) :
    return_prev_close_and_current ticker info (l ++ [x]) hist1d
      = some ⟨pyRound x (quotePrecision ticker),
              pyRound c (quotePrecision ticker)⟩ := by
  have hg : (l ++ [x]).getLast? = some x := by
    simp [List.getLast?_concat]
  have hlen : 1 ≤ (l ++ [x]).length := by
    simp
  simp only [return_prev_close_and_current, hpc, if_true, hlen, hg, hrmp]
  simp [unusable, hc]

/-- Witness for the amended C2: snapshot previous close absent, 2-day bars
`[10, 20]`, usable current price 5 — the resolved previous close is the most
recent bar's close, 20. -/
theorem claim_C2_amended_witness :
    return_prev_close_and_current "X" ⟨none, some 5, none⟩ ([10] ++ [20]) []
      = some ⟨pyRound 20 (quotePrecision "X"), pyRound 5 (quotePrecision "X")⟩ :=
  claim_C2_amended "X" ⟨none, some 5, none⟩ [10] [] 20 5
    (by with_unfolding_all rfl) rfl (by with_unfolding_all decide)

/-- Claim C4: when every holding's quote resolves, the valuation's dollar
change is `round(Σ sharesᵢ · (currentᵢ − previousCloseᵢ), 2)`; and for the
one-holding portfolio `["AAA"]` with 10 shares, previousClose 100 and
currentPrice 105, the result is `(50.00, 0.05)`. -/
theorem claim_C4_dollar_change_formula (resolve : String → Option Quote)
    (tickers : List String) (num_shares : List ℚ) (qs : List Quote)
    (h : tickers.map resolve = qs.map some) :
    (run_calcs resolve tickers num_shares).1
        = pyRound ((List.zipWith (fun q s => s * (q.currentPrice - q.prevClose))
            qs num_shares).sum) 2
      ∧ run_calcs (fun _ => some ⟨100, 105⟩) ["AAA"] [10] = (50, 1/20) := by
  constructor
  · simp only [run_calcs]
    rw [h]
    have hnone : ((qs.map some).any fun p => p.isNone) = false := by
      simp [List.any_map, Function.comp]
    simp only [hnone, Bool.false_eq_true, if_false]
    unfold total_portfolio_current total_portfolio_at_open
    rw [List.zipWith_map_left, List.zipWith_map_left]
    have hsub := sum_zipWith_sub (fun (q : Quote) (s : ℚ) => s * q.currentPrice)
      (fun (q : Quote) (s : ℚ) => s * q.prevClose) qs num_shares
    simp only [hsub]
    have hfun : (fun (a : Quote) (b : ℚ) => b * a.currentPrice - b * a.prevClose)
        = fun (q : Quote) (s : ℚ) => s * (q.currentPrice - q.prevClose) := by
      funext q s
      ring
    rw [hfun]
  · with_unfolding_all rfl

/-- Witness for C4, instantiated at the one-holding scenario of the claim. -/
theorem claim_C4_witness :
    (run_calcs (fun _ => some ⟨100, 105⟩) ["AAA"] [10]).1
        = pyRound ((List.zipWith (fun (q : Quote) (s : ℚ) =>
            s * (q.currentPrice - q.prevClose)) [⟨100, 105⟩] [10]).sum) 2
      ∧ run_calcs (fun _ => some ⟨100, 105⟩) ["AAA"] [10] = (50, 1/20) :=
  claim_C4_dollar_change_formula (fun _ => some ⟨100, 105⟩) ["AAA"] [10]
    [⟨100, 105⟩] rfl

/-- Claim C5: when every quote resolves and the baseline total
`Σ sharesᵢ · previousCloseᵢ` is exactly zero, the percent change is exactly
zero (the zero-denominator division is never performed). -/
theorem claim_C5_zero_baseline (resolve : String → Option Quote)
    (tickers : List String) (num_shares : List ℚ) (qs : List Quote)
    (_hall : tickers.map resolve = qs.map some)
    (h0 : total_portfolio_at_open (tickers.map resolve) num_shares = 0) :
    (run_calcs resolve tickers num_shares).2 = 0 := by
  simp only [run_calcs]
  split
  · rfl
  · simp [h0]

/-- Witness for C5: a single holding with previous close 0 gives a zero
baseline, and the percent change comes out exactly 0. -/
theorem claim_C5_witness :
    total_portfolio_at_open (["AAA"].map (fun _ => some ⟨0, 5⟩)) [3] = 0
      ∧ (run_calcs (fun _ => some ⟨0, 5⟩) ["AAA"] [3]).2 = 0 :=
  ⟨by with_unfolding_all rfl,
    claim_C5_zero_baseline (fun _ => some ⟨0, 5⟩) ["AAA"] [3] [⟨0, 5⟩] rfl
      (by with_unfolding_all rfl)⟩

/-- Claim C3: the beta estimator returns exactly 1.0 (i) when the portfolio
ticker list is empty, (ii) on any retrieval/computation error, and (iii) when
the aligned portfolio/benchmark return series has fewer than 126
observations. -/
theorem claim_C3_beta_neutral_default :
    (∀ (fetch : Except Unit (List (String × List ℚ))) (mkt : String),
        calculate_beta fetch [] mkt = 1)
      ∧ (∀ (tickers : List String) (mkt : String),
          calculate_beta (.error ()) tickers mkt = 1)
      ∧ (∀ (data : List (String × List ℚ)) (tickers : List String)
          (mkt : String) (mktCol : List ℚ),
          lookupCol data mkt = some mktCol →
          (combined_returns data tickers mktCol).length < 126 →
          calculate_beta (.ok data) tickers mkt = 1) := by
  refine ⟨?_, ?_, ?_⟩
  · intro fetch mkt
    match fetch with
    | .error _ => rfl
    | .ok data =>
      simp only [calculate_beta]
      cases lookupCol data mkt with
      | none => rfl
      | some mktCol => simp
  · intro tickers mkt
    rfl
  · intro data tickers mkt mktCol hcol hlen
    simp only [calculate_beta, hcol]
    by_cases h1 : tickers.isEmpty
    · simp [h1]
    · by_cases h2 : (valid_tickers data tickers).isEmpty
      · simp [h1, h2]
      · simp [h1, h2, hlen]

/-- Witness for C3: one concrete instance of each of the three neutral-default
cases. -/
theorem claim_C3_witness :
    calculate_beta (.ok [("M", [1, 2, 3])]) ["A"] "M" = 1
      ∧ calculate_beta (.error ()) ["A"] "M" = 1
      ∧ calculate_beta (.ok []) [] "M" = 1 :=
  ⟨claim_C3_beta_neutral_default.2.2 [("M", [1, 2, 3])] ["A"] "M" [1, 2, 3]
      (by with_unfolding_all rfl) (by with_unfolding_all decide),
    claim_C3_beta_neutral_default.2.1 ["A"] "M",
    claim_C3_beta_neutral_default.1 (.ok []) "M"⟩

/-- Claim C8: for aligned return series with non-zero benchmark sample
variance, the backtester's covariance/variance estimator equals the
first-degree least-squares slope used by the daily beta estimator. -/
theorem claim_C8_cov_over_var_is_ols_slope (bench port : List ℚ)
    (_hlen : bench.length = port.length) (hvar : sampleVar bench ≠ 0) :
    beta_period bench port = polyfitSlope bench port := by
  unfold beta_period sampleCov sampleVar polyfitSlope
  unfold sampleVar at hvar
  have hn1 : ((bench.length : ℚ) - 1) ≠ 0 := by
    intro h
    rw [h] at hvar
    simp at hvar
  have hSxx : (bench.map (fun a => (a - mean bench) ^ 2)).sum ≠ 0 := by
    intro h
    rw [h] at hvar
    simp at hvar
  field_simp

/-- Witness for C8: the two estimators agree on the concrete aligned pair
`bench = [0, 1]`, `port = [0, 2]`, whose benchmark variance is 1/2 ≠ 0. -/
theorem claim_C8_witness :
    beta_period [0, 1] [0, 2] = polyfitSlope [0, 1] [0, 2] :=
  claim_C8_cov_over_var_is_ols_slope [0, 1] [0, 2] rfl
    (by with_unfolding_all decide)

/-- Claim C6, counterexample: for the spec's fixed inputs (R_p = 0.01,
dailyRfr = 0.0001 via an annual ^TNX yield of 2.52, beta = 1.2,
R_m = 0.008) the daily alpha is exactly 0.00042 = 21/50000, which is not the
0.00052 the spec states (not even after rounding to 5 decimal places). -/
theorem claim_C6_counterexample :
    alpha (1/100) (some ⟨0, 252/100⟩) (1/125) (6/5) = 21/50000
      ∧ pyRound (21/50000) 5 = 21/50000
      ∧ (21/50000 : ℚ) ≠ 13/25000 :=
  ⟨by with_unfolding_all rfl, by with_unfolding_all rfl,
    by with_unfolding_all decide⟩

/-- Claim C6 as amended: the daily alpha equals
`portfolioDailyReturn − (dailyRfr + beta·(benchmarkDailyReturn − dailyRfr))`
with `dailyRfr = annualRate/252`, and for the spec's fixed inputs the value
is exactly 0.00042 (the spec's "≈ 0.00052" is an arithmetic slip). -/
theorem claim_C6_amended :
    (∀ pg bg b p c : ℚ, alpha pg (some ⟨p, c⟩) bg b
        = pg - (c/100/252 + b * (bg - c/100/252)))
      ∧ alpha (1/100) (some ⟨0, 252/100⟩) (1/125) (6/5) = 21/50000 := by
  constructor
  · intro pg bg b p c
    rfl
  · with_unfolding_all rfl

/-- Claim C7: the backtester's de-annualized period risk-free rate
`avgAnnualRfr · periodYears` is linear in `periodYears`: doubling the window
doubles the period rate for any fixed average annual yield. -/
theorem claim_C7_period_rfr_linear (avgAnnualRfr periodYears : ℚ) :
    period_rfr avgAnnualRfr (2 * periodYears)
      = 2 * period_rfr avgAnnualRfr periodYears := by
  unfold period_rfr
  ring

/-- Claim C9: with a (truthy) market timestamp present, the clock reports
LIVE exactly when the timestamp's date is today's date and the current time
is strictly before the 4:30PM market close; in every other case — including
the boundary where the current time equals the close — it reports
AFTER-CLOSE anchored on the timestamp's date. -/
theorem claim_C9_market_clock (ts : ℕ) (now : DateTime) (h : ts ≠ 0) :
    (get_last_updated_time (some ts) now = UpdateTimeResult.live now
        ↔ ((fromtimestamp ts).date = now.date
            ∧ now.timeOfDay < US_MARKET_CLOSE_TIME))
      ∧ (¬((fromtimestamp ts).date = now.date
            ∧ now.timeOfDay < US_MARKET_CLOSE_TIME) →
          get_last_updated_time (some ts) now
            = UpdateTimeResult.afterClose (fromtimestamp ts).date) := by
  simp only [get_last_updated_time, if_pos h]
  refine ⟨⟨?_, ?_⟩, ?_⟩
  · intro hres
    by_contra hcond
    rw [if_neg hcond] at hres
    exact absurd hres (by simp)
  · intro hcond
    rw [if_pos hcond]
  · intro hcond
    rw [if_neg hcond]

/-- Witness for C9: timestamp 8699400 falls on day 100 at 4:30PM; with the
current time exactly at market close on the same day, the clock reports
AFTER-CLOSE on day 100, not LIVE. -/
theorem claim_C9_witness :
    get_last_updated_time (some 8699400) ⟨100, 990⟩
      = UpdateTimeResult.afterClose 100 := by
  have h := (claim_C9_market_clock 8699400 ⟨100, 990⟩
    (by with_unfolding_all decide)).2 (by with_unfolding_all decide)
  simpa using h

/-- Claim C10: a requested ticker absent from the downloaded price panel is
silently omitted from the backtester's daily portfolio-value sum, and the
cumulative return is computed over the remaining holdings only — unlike the
daily valuation `run_calcs`, which collapses to `(0, 0)` when the same
holding is unresolvable. -/
theorem claim_C10_backtester_best_effort (panel : List (String × List ℚ))
    (tickers1 tickers2 : List String) (shares1 shares2 : List ℚ)
    (tk : String) (s : ℚ) (t lastIdx : ℕ)
    (resolve : String → Option Quote) (num_shares : List ℚ)
    (habsent : lookupCol panel tk = none)
    (hlen : tickers1.length = shares1.length)
    (hres : resolve tk = none) :
    portfolio_value_at panel (tickers1 ++ tk :: tickers2)
        (shares1 ++ s :: shares2) t
      = portfolio_value_at panel (tickers1 ++ tickers2)
          (shares1 ++ shares2) t
    ∧ portfolio_total_return panel (tickers1 ++ tk :: tickers2)
        (shares1 ++ s :: shares2) lastIdx
      = portfolio_total_return panel (tickers1 ++ tickers2)
          (shares1 ++ shares2) lastIdx
    ∧ run_calcs resolve (tickers1 ++ tk :: tickers2) num_shares = (0, 0) := by
  have hval : ∀ u : ℕ,
      portfolio_value_at panel (tickers1 ++ tk :: tickers2)
          (shares1 ++ s :: shares2) u
        = portfolio_value_at panel (tickers1 ++ tickers2)
            (shares1 ++ shares2) u := by
    intro u
    unfold portfolio_value_at
    rw [List.zipWith_append _ _ _ _ _ hlen, List.zipWith_append _ _ _ _ _ hlen]
    simp [habsent]
  refine ⟨hval t, ?_, ?_⟩
  · unfold portfolio_total_return
    rw [hval lastIdx, hval 0]
  · exact run_calcs_absent resolve _ num_shares tk hres
      (List.mem_append_right _ (List.mem_cons_self _ _))

/-- Witness for C10: panel holding only ticker "A", portfolio ["A", "B"] with
"B" missing from the panel — the backtest value series and cumulative return
equal those of the ["A"]-only portfolio, while the daily valuation of the
same portfolio under an unresolvable "B" is `(0, 0)`. -/
theorem claim_C10_witness :
    portfolio_value_at [("A", [10, 20])] (["A"] ++ "B" :: []) ([1] ++ 1 :: []) 0
        = portfolio_value_at [("A", [10, 20])] (["A"] ++ []) ([1] ++ []) 0
      ∧ portfolio_total_return [("A", [10, 20])] (["A"] ++ "B" :: [])
          ([1] ++ 1 :: []) 1
        = portfolio_total_return [("A", [10, 20])] (["A"] ++ []) ([1] ++ []) 1
      ∧ run_calcs (fun _ => none) (["A"] ++ "B" :: []) [1, 1] = (0, 0) :=
  claim_C10_backtester_best_effort [("A", [10, 20])] ["A"] [] [1] [] "B" 1 0 1
    (fun _ => none) [1, 1] (by with_unfolding_all rfl) rfl rfl

end DppApp
